import Mathlib

/-!
Verification of the littlefarmlist persistence layer (server/storage.ts, the
account-based version): the storage contract `IStorage` and its two
implementations, `DbStorage` (PostgreSQL, raw SQL over the drizzle schema in
shared/schema.ts) and `MemStorage` (keyed records in memory).

Modelling conventions of this shallow embedding:
- JavaScript numbers used as ids are modelled as `Nat`; item prices and
  coordinates are opaque payload for the storage layer and are modelled as
  `Int`.
- `Date`/`timestamp` values are modelled by a per-store logical clock
  (`Store.clock`) that every row creation reads and then increments, so
  creation times are strictly increasing across creations; sorting comparators
  on them are therefore tie-free on reachable states.
- A JavaScript optional field (possibly `undefined`) is `Option α`; a field of
  a nullable column that may also be absent is `Option (Option α)` with the
  outer layer meaning presence (`undefined` when `none`) and the inner layer
  meaning `null`.
- `Record<number, T>` objects iterate their integer keys in ascending order,
  and both stores only ever insert rows under a strictly increasing id, so a
  record is modelled as a list in insertion order; in-place mutation of an
  entry is a positional `map`, deletion is a `filter`.
- JavaScript `Array.prototype.sort` is stable, and `ORDER BY` on the
  tie-free creation clock is deterministic; both are modelled with the stable
  `List.insertionSort`. `localeCompare` on names and SQL text collation are
  both modelled as the codepoint order on `String`.
- Exceptions thrown by an operation (or raised by a database constraint) are
  `Except StorageError`; `undefined`/not-found results are `Option`.
- bcryptjs hashing is salted and external; it is modelled by an explicit
  `hashFn : String → String` parameter on the operations that hash or
  compare, with `compare p h` modelled as `hashFn p == h`.
- The relational model includes the constraints the database engine
  enforces, taken from the account-based shared schema. The copy at
  src/shared/schema.ts is the older pre-auth revision; the live revision —
  the one exporting the users and favorites tables and the listings user_id
  column that storage.ts and the routes import — travels inside
  src/client/src/components/CategoryRow.tsx. It declares the unique index
  categories_name_idx, the unique indexes users_email_idx and
  users_username_idx, the listings.user_id foreign key referencing
  users.id, the listing_categories foreign keys cascading on delete, and
  the favorites table with cascading foreign keys on user_id and
  listing_id and the composite-unique favorites_user_listing_idx.
-/

deriving instance DecidableEq for Except

namespace LFL

/-- An entry of the jsonb items column (shared/schema.ts itemSchema). -/
structure Item where
  name : String
  price : Int
deriving Repr, DecidableEq

/-- A lat/lng pair (shared/schema.ts coordinatesSchema). -/
structure Coordinates where
  lat : Int
  lng : Int
deriving Repr, DecidableEq

/-- A row of the listings table in its camelCase domain form (type Listing). -/
structure Listing where
  id : Nat
  title : String
  description : Option String
  items : List Item
  categories : List String
  pickupInstructions : String
  paymentInfo : Option String
  address : String
  coordinates : Option Coordinates
  imageUrl : Option String
  createdAt : Nat
  userId : Nat
deriving Repr, DecidableEq

/-- A row of the categories table (type Category). -/
structure Category where
  id : Nat
  name : String
  description : Option String
  createdAt : Nat
deriving Repr, DecidableEq

/-- A row of the users table in camelCase domain form (type User). -/
structure User where
  id : Nat
  email : String
  username : String
  passwordHash : String
  firstName : Option String
  lastName : Option String
  isVerified : Bool
  createdAt : Nat
deriving Repr, DecidableEq

/-- A row of the favorites table (type Favorite). -/
structure Favorite where
  id : Nat
  userId : Nat
  listingId : Nat
  createdAt : Nat
deriving Repr, DecidableEq

/-- A row of the listing_categories junction table (type ListingCategory). -/
structure ListingCategory where
  listingId : Nat
  categoryId : Nat
deriving Repr, DecidableEq

/-- The CreateListing input (createListingSchema). userId reaches the storage
layer as an optional number which the code tests with JavaScript truthiness,
so a present 0 is distinguishable from an absent value here. -/
structure CreateListing where
  title : String
  description : Option String
  items : List Item
  categories : Option (List String)
  pickupInstructions : String
  paymentInfo : Option String
  address : String
  coordinates : Option Coordinates
  imageUrl : Option String
  userId : Option Nat
deriving Repr, DecidableEq

/-- The CreateCategory input (createCategorySchema). -/
structure CreateCategory where
  name : String
  description : Option String
deriving Repr, DecidableEq

/-- The InsertUser input: plaintext password plus profile fields. -/
structure InsertUser where
  email : String
  username : String
  password : String
  firstName : Option String
  lastName : Option String
deriving Repr, DecidableEq

/-- A Partial of InsertListing as passed to updateListing. The outer Option
is key presence (undefined when none); nullable columns carry an inner Option
for an explicit null. categories arrives from route validation as an array or
not at all. -/
structure ListingUpdate where
  title : Option String
  description : Option (Option String)
  items : Option (List Item)
  categories : Option (List String)
  pickupInstructions : Option String
  paymentInfo : Option (Option String)
  address : Option String
  coordinates : Option (Option Coordinates)
  imageUrl : Option (Option String)
  userId : Option Nat
deriving Repr, DecidableEq

/-- A Partial of InsertCategory as passed to updateCategory. -/
structure CategoryUpdate where
  name : Option String
  description : Option (Option String)
deriving Repr, DecidableEq

/-- A Partial of InsertUser as passed to updateUser. -/
structure UserUpdate where
  email : Option String
  username : Option String
  password : Option String
  firstName : Option (Option String)
  lastName : Option (Option String)
deriving Repr, DecidableEq

/-- The update object with no keys: Object.keys(listingUpdate).length === 0. -/
def ListingUpdate.isEmpty (u : ListingUpdate) : Bool :=
  u.title.isNone && u.description.isNone && u.items.isNone && u.categories.isNone &&
  u.pickupInstructions.isNone && u.paymentInfo.isNone && u.address.isNone &&
  u.coordinates.isNone && u.imageUrl.isNone && u.userId.isNone

/-- The empty listing update object. -/
def ListingUpdate.empty : ListingUpdate :=
  ⟨none, none, none, none, none, none, none, none, none, none⟩

/-- The update object with no keys, for categories. -/
def CategoryUpdate.isEmpty (u : CategoryUpdate) : Bool :=
  u.name.isNone && u.description.isNone

/-- The update object with no keys, for users. -/
def UserUpdate.isEmpty (u : UserUpdate) : Bool :=
  u.email.isNone && u.username.isNone && u.password.isNone &&
  u.firstName.isNone && u.lastName.isNone

/-- Failure conditions an operation can signal: the explicit throws in the
source (missing owner, missing favorite reference) plus the constraint
violations the database engine raises for DbStorage. -/
inductive StorageError where
  | missingOwner
  | referenceNotFound
  | uniqueViolation
  | foreignKeyViolation
deriving Repr, DecidableEq

/-- The rows and id/clock counters of one storage backend. MemStorage holds
these as its private record fields; for DbStorage they are the five tables
plus the serial sequences. -/
structure Store where
  listings : List Listing
  categories : List Category
  users : List User
  favorites : List Favorite
  listingCategories : List ListingCategory
  listingCurrentId : Nat
  categoryCurrentId : Nat
  userCurrentId : Nat
  favoriteCurrentId : Nat
  clock : Nat
deriving Repr, DecidableEq

/-- The freshly constructed store (MemStorage constructor / empty tables). -/
def Store.empty : Store :=
  { listings := [], categories := [], users := [], favorites := [],
    listingCategories := [], listingCurrentId := 1, categoryCurrentId := 1,
    userCurrentId := 1, favoriteCurrentId := 1, clock := 0 }

/-- JavaScript truthiness of an optional numeric id: !x holds for undefined
and for 0. -/
def falsyId : Option Nat → Bool
  | none => true
  | some n => n == 0

/-- JavaScript x || null on an optional string: an absent or empty string
becomes null. -/
def orNull : Option String → Option String
  | some s => if s == "" then none else some s
  | none => none

/-- JavaScript u ?? prior where u may be absent, null, or a value: null and
undefined both fall back to the prior value. -/
def applyNullish {α : Type} (u : Option (Option α)) (prior : Option α) : Option α :=
  match u with
  | some (some v) => some v
  | _ => prior

/-- Row lookup by listing id. -/
def findListing (s : Store) (id : Nat) : Option Listing :=
  s.listings.find? (fun l => l.id == id)

/-- Row lookup by category id. -/
def findCategory (s : Store) (id : Nat) : Option Category :=
  s.categories.find? (fun c => c.id == id)

/-- Row lookup by user id. -/
def findUser (s : Store) (id : Nat) : Option User :=
  s.users.find? (fun u => u.id == id)

/-- First favorite row with the given (userId, listingId) pair. -/
def findFavoritePair (s : Store) (userId listingId : Nat) : Option Favorite :=
  s.favorites.find? (fun f => f.userId == userId && f.listingId == listingId)

/-- Whether the junction table holds the (listingId, categoryId) pair. -/
def hasPair (s : Store) (listingId categoryId : Nat) : Bool :=
  s.listingCategories.any (fun p => p.listingId == listingId && p.categoryId == categoryId)

/-- Stable ascending sort of categories by name (localeCompare / ORDER BY
name ASC, modelled as codepoint order). -/
def sortByNameAsc (cs : List Category) : List Category :=
  List.insertionSort (fun a b => a.name ≤ b.name) cs

/-- Stable descending sort of listings by creation time. -/
def sortListingsByCreatedDesc (ls : List Listing) : List Listing :=
  List.insertionSort (fun a b => b.createdAt ≤ a.createdAt) ls

/-- Stable descending sort of favorites by creation time. -/
def sortFavoritesByCreatedDesc (fs : List Favorite) : List Favorite :=
  List.insertionSort (fun a b => b.createdAt ≤ a.createdAt) fs

namespace Mem

/-- MemStorage.createListing: throws when userId is falsy, otherwise builds
the listing under the next id and stores it. -/
def createListing (s : Store) (d : CreateListing) : Except StorageError (Listing × Store) :=
  if falsyId d.userId then
    .error .missingOwner
  else
    let listing : Listing :=
      { id := s.listingCurrentId
        title := d.title
        description := orNull d.description
        items := d.items
        categories := d.categories.getD []
        pickupInstructions := d.pickupInstructions
        paymentInfo := orNull d.paymentInfo
        address := d.address
        coordinates := d.coordinates
        imageUrl := orNull d.imageUrl
        createdAt := s.clock
        userId := d.userId.getD 0 }
    .ok (listing,
      { s with listings := s.listings ++ [listing],
               listingCurrentId := s.listingCurrentId + 1,
               clock := s.clock + 1 })

/-- MemStorage.getListing. -/
def getListing (s : Store) (id : Nat) : Option Listing :=
  findListing s id

/-- MemStorage.getAllListings: Object.values in ascending key order. -/
def getAllListings (s : Store) : List Listing :=
  s.listings

/-- MemStorage.getUserListings. -/
def getUserListings (s : Store) (userId : Nat) : List Listing :=
  s.listings.filter (fun l => l.userId == userId)

/-- The fresh listing object MemStorage.updateListing constructs: every field
goes through a nullish coalescing fallback to the prior value, so an explicit
null behaves like an absent field; categories applies only when supplied as
an array, otherwise keeps the prior (always-array) value. -/
def mergeListingNullish (l : Listing) (u : ListingUpdate) : Listing :=
  { id := l.id
    title := u.title.getD l.title
    description := applyNullish u.description l.description
    items := u.items.getD l.items
    categories := match u.categories with | some cs => cs | none => l.categories
    pickupInstructions := u.pickupInstructions.getD l.pickupInstructions
    paymentInfo := applyNullish u.paymentInfo l.paymentInfo
    address := u.address.getD l.address
    coordinates := applyNullish u.coordinates l.coordinates
    imageUrl := applyNullish u.imageUrl l.imageUrl
    createdAt := l.createdAt
    userId := u.userId.getD l.userId }

/-- MemStorage.updateListing: undefined when the id is absent, otherwise the
merged object replaces the record entry and is returned. -/
def updateListing (s : Store) (id : Nat) (u : ListingUpdate) : Option (Listing × Store) :=
  match findListing s id with
  | none => none
  | some l =>
    let l2 := mergeListingNullish l u
    some (l2, { s with listings := s.listings.map (fun x => if x.id == id then l2 else x) })

/-- MemStorage.deleteListing: removes only the listing record itself; the
favorites and listingCategories records are left untouched. -/
def deleteListing (s : Store) (id : Nat) : Bool × Store :=
  if (findListing s id).isSome then
    (true, { s with listings := s.listings.filter (fun l => l.id != id) })
  else
    (false, s)

/-- MemStorage.createCategory: no name-uniqueness check of any kind. -/
def createCategory (s : Store) (d : CreateCategory) : Category × Store :=
  let c : Category :=
    { id := s.categoryCurrentId
      name := d.name
      description := orNull d.description
      createdAt := s.clock }
  (c, { s with categories := s.categories ++ [c],
               categoryCurrentId := s.categoryCurrentId + 1,
               clock := s.clock + 1 })

/-- MemStorage.getCategory. -/
def getCategory (s : Store) (id : Nat) : Option Category :=
  findCategory s id

/-- MemStorage.getCategoryByName: first match in record order. -/
def getCategoryByName (s : Store) (name : String) : Option Category :=
  s.categories.find? (fun c => c.name == name)

/-- MemStorage.getAllCategories: sorted by name. -/
def getAllCategories (s : Store) : List Category :=
  sortByNameAsc s.categories

/-- MemStorage.updateCategory: nullish-coalescing merge, stored in place. -/
def updateCategory (s : Store) (id : Nat) (u : CategoryUpdate) : Option (Category × Store) :=
  match findCategory s id with
  | none => none
  | some c =>
    let c2 : Category :=
      { id := c.id
        name := u.name.getD c.name
        description := applyNullish u.description c.description
        createdAt := c.createdAt }
    some (c2, { s with categories := s.categories.map (fun x => if x.id == id then c2 else x) })

/-- MemStorage.deleteCategory: removes the category and filters out every
junction row referencing it. -/
def deleteCategory (s : Store) (id : Nat) : Bool × Store :=
  if (findCategory s id).isSome then
    (true, { s with categories := s.categories.filter (fun c => c.id != id),
                    listingCategories := s.listingCategories.filter (fun p => p.categoryId != id) })
  else
    (false, s)

/-- MemStorage.addCategoryToListing: writes the keyed pair only when both the
listing and the category exist; otherwise it silently does nothing. Writing
an already present key stores an identical value, leaving the state equal. -/
def addCategoryToListing (s : Store) (listingId categoryId : Nat) : Store :=
  if (findListing s listingId).isSome && (findCategory s categoryId).isSome then
    if hasPair s listingId categoryId then
      s
    else
      { s with listingCategories := s.listingCategories ++ [⟨listingId, categoryId⟩] }
  else
    s

/-- MemStorage.removeCategoryFromListing: unconditional delete of the key. -/
def removeCategoryFromListing (s : Store) (listingId categoryId : Nat) : Store :=
  { s with listingCategories :=
      s.listingCategories.filter (fun p => !(p.listingId == listingId && p.categoryId == categoryId)) }

/-- MemStorage.getListingCategories: category ids of the junction rows for
the listing (unique by keying), resolved and name-sorted, missing ids
skipped. -/
def getListingCategories (s : Store) (listingId : Nat) : List Category :=
  let ids := (s.listingCategories.filter (fun p => p.listingId == listingId)).map
    (fun p => p.categoryId)
  sortByNameAsc (ids.filterMap (fun cid => findCategory s cid))

/-- MemStorage.getCategoryListings: listing ids of the junction rows for the
category, resolved, missing ids skipped, sorted newest first by the listing
creation time. -/
def getCategoryListings (s : Store) (categoryId : Nat) : List Listing :=
  let ids := (s.listingCategories.filter (fun p => p.categoryId == categoryId)).map
    (fun p => p.listingId)
  sortListingsByCreatedDesc (ids.filterMap (fun lid => findListing s lid))

/-- MemStorage.createUser: hashes the password and stores the user; no
email or username uniqueness check at this layer. -/
def createUser (hashFn : String → String) (s : Store) (d : InsertUser) : User × Store :=
  let u : User :=
    { id := s.userCurrentId
      email := d.email
      username := d.username
      passwordHash := hashFn d.password
      firstName := orNull d.firstName
      lastName := orNull d.lastName
      isVerified := false
      createdAt := s.clock }
  (u, { s with users := s.users ++ [u],
               userCurrentId := s.userCurrentId + 1,
               clock := s.clock + 1 })

/-- MemStorage.getUserById. -/
def getUserById (s : Store) (id : Nat) : Option User :=
  findUser s id

/-- MemStorage.getUserByEmail: first match in record order. -/
def getUserByEmail (s : Store) (email : String) : Option User :=
  s.users.find? (fun u => u.email == email)

/-- MemStorage.getUserByUsername. -/
def getUserByUsername (s : Store) (username : String) : Option User :=
  s.users.find? (fun u => u.username == username)

/-- MemStorage.updateUser: nullish-coalescing merge of the identity fields;
the password is re-hashed only when supplied truthy (non-empty). -/
def updateUser (hashFn : String → String) (s : Store) (id : Nat) (d : UserUpdate) :
    Option (User × Store) :=
  match findUser s id with
  | none => none
  | some u =>
    let u1 : User :=
      { u with email := d.email.getD u.email
               username := d.username.getD u.username
               firstName := applyNullish d.firstName u.firstName
               lastName := applyNullish d.lastName u.lastName }
    let u2 : User :=
      match d.password with
      | some p => if p == "" then u1 else { u1 with passwordHash := hashFn p }
      | none => u1
    some (u2, { s with users := s.users.map (fun x => if x.id == id then u2 else x) })

/-- MemStorage.verifyUser: flips isVerified on the found user in place and
reports whether one was found. -/
def verifyUser (s : Store) (email : String) : Bool × Store :=
  match getUserByEmail s email with
  | none => (false, s)
  | some u =>
    (true, { s with users := (s.users.map (fun x =>
        if x.id == u.id then { x with isVerified := true } else x)) })

/-- MemStorage.validatePassword: email lookup, then bcrypt compare; an
unknown email and a wrong password both return null. -/
def validatePassword (hashFn : String → String) (s : Store) (email password : String) :
    Option User :=
  match getUserByEmail s email with
  | none => none
  | some u => if hashFn password == u.passwordHash then some u else none

/-- MemStorage.addFavorite: checks that the user and the listing exist first
(throwing if not), only then looks for an existing pair to return; otherwise
creates the favorite under the next id. -/
def addFavorite (s : Store) (userId listingId : Nat) : Except StorageError (Favorite × Store) :=
  if !((findUser s userId).isSome && (findListing s listingId).isSome) then
    .error .referenceNotFound
  else
    match findFavoritePair s userId listingId with
    | some f => .ok (f, s)
    | none =>
      let f : Favorite :=
        { id := s.favoriteCurrentId
          userId := userId
          listingId := listingId
          createdAt := s.clock }
      .ok (f, { s with favorites := s.favorites ++ [f],
                       favoriteCurrentId := s.favoriteCurrentId + 1,
                       clock := s.clock + 1 })

/-- MemStorage.removeFavorite: deletes the first matching pair by its id. -/
def removeFavorite (s : Store) (userId listingId : Nat) : Bool × Store :=
  match findFavoritePair s userId listingId with
  | some f => (true, { s with favorites := s.favorites.filter (fun x => x.id != f.id) })
  | none => (false, s)

/-- MemStorage.getUserFavorites: the favorited listing ids of the user,
resolved against the listings record (silently skipping listings that no
longer exist), sorted newest first by the LISTING creation time. -/
def getUserFavorites (s : Store) (userId : Nat) : List Listing :=
  let ids := (s.favorites.filter (fun f => f.userId == userId)).map (fun f => f.listingId)
  sortListingsByCreatedDesc (ids.filterMap (fun lid => findListing s lid))

/-- MemStorage.isFavorite. -/
def isFavorite (s : Store) (userId listingId : Nat) : Bool :=
  s.favorites.any (fun f => f.userId == userId && f.listingId == listingId)

end Mem

namespace Db

/-- One UPDATE listings SET ... WHERE id statement: rewrites the matching
row in place. -/
def setListingField (s : Store) (id : Nat) (f : Listing → Listing) : Store :=
  { s with listings := (s.listings.map (fun x => if x.id == id then f x else x)) }

/-- One UPDATE categories SET ... WHERE id statement. -/
def setCategoryField (s : Store) (id : Nat) (f : Category → Category) : Store :=
  { s with categories := (s.categories.map (fun x => if x.id == id then f x else x)) }

/-- One UPDATE users SET ... WHERE id statement. -/
def setUserField (s : Store) (id : Nat) (f : User → User) : Store :=
  { s with users := (s.users.map (fun x => if x.id == id then f x else x)) }

/-- DbStorage.createListing: throws when userId is falsy, then INSERTs. The
account-based schema (embedded in CategoryRow.tsx) declares listings.user_id
with references users.id, so inserting under a non-existent user id raises a
constraint violation. -/
def createListing (s : Store) (d : CreateListing) : Except StorageError (Listing × Store) :=
  if falsyId d.userId then
    .error .missingOwner
  else if !(findUser s (d.userId.getD 0)).isSome then
    .error .foreignKeyViolation
  else
    let listing : Listing :=
      { id := s.listingCurrentId
        title := d.title
        description := orNull d.description
        items := d.items
        categories := d.categories.getD []
        pickupInstructions := d.pickupInstructions
        paymentInfo := orNull d.paymentInfo
        address := d.address
        coordinates := d.coordinates
        imageUrl := orNull d.imageUrl
        createdAt := s.clock
        userId := d.userId.getD 0 }
    .ok (listing,
      { s with listings := s.listings ++ [listing],
               listingCurrentId := s.listingCurrentId + 1,
               clock := s.clock + 1 })

/-- DbStorage.getListing: SELECT by id. -/
def getListing (s : Store) (id : Nat) : Option Listing :=
  findListing s id

/-- DbStorage.getAllListings: SELECT without ORDER BY, modelled as table
order. -/
def getAllListings (s : Store) : List Listing :=
  s.listings

/-- DbStorage.getUserListings. -/
def getUserListings (s : Store) (userId : Nat) : List Listing :=
  s.listings.filter (fun l => l.userId == userId)

/-- One conditional per-field statement of DbStorage.updateListing: when the
field is present in the update object, one UPDATE listings SET field WHERE id
is issued, otherwise nothing happens. -/
def updateField {β : Type} (s : Store) (id : Nat) (upd : Option β)
    (set : β → Listing → Listing) : Store :=
  match upd with
  | some v => setListingField s id (set v)
  | none => s

/-- The effect a conditional per-field statement has on the targeted row. -/
def applyUpd {β : Type} (upd : Option β) (set : β → Listing → Listing) (x : Listing) : Listing :=
  match upd with
  | some v => set v x
  | none => x

/-- DbStorage.updateListing: re-reads the row (undefined when the id is
absent, with no statement issued), returns it unchanged for an empty update,
otherwise issues one UPDATE statement per present field in source order — an
explicit null IS written for nullable columns — and finally re-SELECTs the
row. The last statement, for user_id, is subject to the listings.user_id
foreign key of the account-based schema (embedded in CategoryRow.tsx):
setting it to a non-existent user makes the engine reject that statement
and the operation throws. Because each field travels in its own statement
(the documented non-atomicity of the reference behavior), the previously
applied fields are already committed when the throw happens; the error
therefore carries the state reached at the failure. -/
def updateListing (s : Store) (id : Nat) (u : ListingUpdate) :
    Except (StorageError × Store) (Option (Listing × Store)) :=
  match findListing s id with
  | none => .ok none
  | some l0 =>
    if u.isEmpty then
      .ok (some (l0, s))
    else
      let s1 := updateField s id u.title (fun v x => { x with title := v })
      let s2 := updateField s1 id u.description (fun v x => { x with description := v })
      let s3 := updateField s2 id u.items (fun v x => { x with items := v })
      let s4 := updateField s3 id u.categories (fun v x => { x with categories := v })
      let s5 := updateField s4 id u.pickupInstructions (fun v x => { x with pickupInstructions := v })
      let s6 := updateField s5 id u.paymentInfo (fun v x => { x with paymentInfo := v })
      let s7 := updateField s6 id u.address (fun v x => { x with address := v })
      let s8 := updateField s7 id u.coordinates (fun v x => { x with coordinates := v })
      let s9 := updateField s8 id u.imageUrl (fun v x => { x with imageUrl := v })
      match u.userId with
      | some v =>
        if (findUser s9 v).isSome then
          let s10 := setListingField s9 id (fun x => { x with userId := v })
          match findListing s10 id with
          | none => .ok none
          | some l => .ok (some (l, s10))
        else
          .error (.foreignKeyViolation, s9)
      | none =>
        match findListing s9 id with
        | none => .ok none
        | some l => .ok (some (l, s9))

/-- The refreshed row of an updateListing outcome, when one was returned. -/
def updatedRow (r : Except (StorageError × Store) (Option (Listing × Store))) : Option Listing :=
  match r with
  | .ok (some (l, _)) => some l
  | _ => none

/-- The error condition of an updateListing outcome, when it threw. -/
def updateError (r : Except (StorageError × Store) (Option (Listing × Store))) :
    Option StorageError :=
  match r with
  | .error (e, _) => some e
  | _ => none

/-- The table state at the moment an updateListing outcome threw. -/
def updateErrorState (r : Except (StorageError × Store) (Option (Listing × Store))) :
    Option Store :=
  match r with
  | .error (_, t) => some t
  | _ => none

/-- DbStorage.deleteListing: DELETE returning whether a row existed. The
listing_categories rows cascade by the foreign keys of the schema, and the
favorites table of the account-based schema (embedded in CategoryRow.tsx)
carries a listing_id foreign key with onDelete cascade, so the favorite
rows of the listing are removed as well. -/
def deleteListing (s : Store) (id : Nat) : Bool × Store :=
  if (findListing s id).isSome then
    (true, { s with listings := s.listings.filter (fun l => l.id != id),
                    listingCategories := s.listingCategories.filter (fun p => p.listingId != id),
                    favorites := s.favorites.filter (fun f => f.listingId != id) })
  else
    (false, s)

/-- DbStorage.createCategory: a plain INSERT; the categories_name_idx unique
index of shared/schema.ts makes the engine reject a duplicate name. -/
def createCategory (s : Store) (d : CreateCategory) : Except StorageError (Category × Store) :=
  if s.categories.any (fun c => c.name == d.name) then
    .error .uniqueViolation
  else
    let c : Category :=
      { id := s.categoryCurrentId
        name := d.name
        description := orNull d.description
        createdAt := s.clock }
    .ok (c, { s with categories := s.categories ++ [c],
                     categoryCurrentId := s.categoryCurrentId + 1,
                     clock := s.clock + 1 })

/-- DbStorage.getCategory. -/
def getCategory (s : Store) (id : Nat) : Option Category :=
  findCategory s id

/-- DbStorage.getCategoryByName: first row in table order. -/
def getCategoryByName (s : Store) (name : String) : Option Category :=
  s.categories.find? (fun c => c.name == name)

/-- DbStorage.getAllCategories: ORDER BY name ASC. -/
def getAllCategories (s : Store) : List Category :=
  sortByNameAsc s.categories

/-- DbStorage.updateCategory: per-field UPDATE statements then a re-SELECT.
No uniqueness re-check is issued by the storage code on update; no claim
exercises the engine-level index on this path. -/
def updateCategory (s : Store) (id : Nat) (u : CategoryUpdate) : Option (Category × Store) :=
  match findCategory s id with
  | none => none
  | some c0 =>
    if u.isEmpty then
      some (c0, s)
    else
      let s1 := match u.name with
        | some v => setCategoryField s id (fun x => { x with name := v })
        | none => s
      let s2 := match u.description with
        | some v => setCategoryField s1 id (fun x => { x with description := v })
        | none => s1
      match findCategory s2 id with
      | none => none
      | some c => some (c, s2)

/-- DbStorage.deleteCategory: DELETE; listing_categories rows cascade by the
schema foreign keys. -/
def deleteCategory (s : Store) (id : Nat) : Bool × Store :=
  if (findCategory s id).isSome then
    (true, { s with categories := s.categories.filter (fun c => c.id != id),
                    listingCategories := s.listingCategories.filter (fun p => p.categoryId != id) })
  else
    (false, s)

/-- DbStorage.addCategoryToListing: SELECTs the pair first; when present it
does nothing, otherwise it INSERTs, and the two foreign keys of
listing_categories (shared/schema.ts) make the engine reject the insert when
the listing or the category does not exist. -/
def addCategoryToListing (s : Store) (listingId categoryId : Nat) : Except StorageError Store :=
  if hasPair s listingId categoryId then
    .ok s
  else if (findListing s listingId).isSome && (findCategory s categoryId).isSome then
    .ok { s with listingCategories := s.listingCategories ++ [⟨listingId, categoryId⟩] }
  else
    .error .foreignKeyViolation

/-- DbStorage.removeCategoryFromListing: unconditional DELETE of the pair. -/
def removeCategoryFromListing (s : Store) (listingId categoryId : Nat) : Store :=
  { s with listingCategories :=
      (s.listingCategories.filter (fun p => !(p.listingId == listingId && p.categoryId == categoryId))) }

/-- DbStorage.getListingCategories: inner join on the junction rows of the
listing, ORDER BY name ASC. -/
def getListingCategories (s : Store) (listingId : Nat) : List Category :=
  let ids := (s.listingCategories.filter (fun p => p.listingId == listingId)).map
    (fun p => p.categoryId)
  sortByNameAsc (ids.filterMap (fun cid => findCategory s cid))

/-- DbStorage.getCategoryListings: inner join, ORDER BY l.created_at DESC. -/
def getCategoryListings (s : Store) (categoryId : Nat) : List Listing :=
  let ids := (s.listingCategories.filter (fun p => p.categoryId == categoryId)).map
    (fun p => p.listingId)
  sortListingsByCreatedDesc (ids.filterMap (fun lid => findListing s lid))

/-- DbStorage.createUser: hashes and INSERTs. The users table of the
account-based schema (embedded in CategoryRow.tsx) has the unique indexes
users_email_idx and users_username_idx, so the engine rejects either
duplicate. -/
def createUser (hashFn : String → String) (s : Store) (d : InsertUser) :
    Except StorageError (User × Store) :=
  if s.users.any (fun u => u.email == d.email) || s.users.any (fun u => u.username == d.username) then
    .error .uniqueViolation
  else
    let u : User :=
      { id := s.userCurrentId
        email := d.email
        username := d.username
        passwordHash := hashFn d.password
        firstName := orNull d.firstName
        lastName := orNull d.lastName
        isVerified := false
        createdAt := s.clock }
    .ok (u, { s with users := s.users ++ [u],
                     userCurrentId := s.userCurrentId + 1,
                     clock := s.clock + 1 })

/-- DbStorage.getUserById. -/
def getUserById (s : Store) (id : Nat) : Option User :=
  findUser s id

/-- DbStorage.getUserByEmail: first row in table order. -/
def getUserByEmail (s : Store) (email : String) : Option User :=
  s.users.find? (fun u => u.email == email)

/-- DbStorage.getUserByUsername. -/
def getUserByUsername (s : Store) (username : String) : Option User :=
  s.users.find? (fun u => u.username == username)

/-- DbStorage.updateUser: per-field UPDATE statements in source order (the
password field is re-hashed whenever present), then getUserById again. -/
def updateUser (hashFn : String → String) (s : Store) (id : Nat) (d : UserUpdate) :
    Option (User × Store) :=
  match findUser s id with
  | none => none
  | some u0 =>
    if d.isEmpty then
      some (u0, s)
    else
      let s1 := match d.email with
        | some v => setUserField s id (fun x => { x with email := v })
        | none => s
      let s2 := match d.username with
        | some v => setUserField s1 id (fun x => { x with username := v })
        | none => s1
      let s3 := match d.password with
        | some p => setUserField s2 id (fun x => { x with passwordHash := hashFn p })
        | none => s2
      let s4 := match d.firstName with
        | some v => setUserField s3 id (fun x => { x with firstName := v })
        | none => s3
      let s5 := match d.lastName with
        | some v => setUserField s4 id (fun x => { x with lastName := v })
        | none => s4
      match findUser s5 id with
      | none => none
      | some u => some (u, s5)

/-- DbStorage.verifyUser: UPDATE ... WHERE email RETURNING id; every row with
the email is flipped and the result says whether any row matched. -/
def verifyUser (s : Store) (email : String) : Bool × Store :=
  (s.users.any (fun u => u.email == email),
   { s with users := (s.users.map (fun u =>
       if u.email == email then { u with isVerified := true } else u)) })

/-- DbStorage.validatePassword: email lookup, then bcrypt compare; an
unknown email and a wrong password both return null. -/
def validatePassword (hashFn : String → String) (s : Store) (email password : String) :
    Option User :=
  match getUserByEmail s email with
  | none => none
  | some u => if hashFn password == u.passwordHash then some u else none

/-- DbStorage.addFavorite: SELECTs the (userId, listingId) pair first and
returns the existing row when found; only otherwise does it INSERT. The
favorites table of the account-based schema (embedded in CategoryRow.tsx)
has foreign keys on user_id and listing_id, so the insert is rejected when
either entity is absent. -/
def addFavorite (s : Store) (userId listingId : Nat) : Except StorageError (Favorite × Store) :=
  match findFavoritePair s userId listingId with
  | some f => .ok (f, s)
  | none =>
    if (findUser s userId).isSome && (findListing s listingId).isSome then
      let f : Favorite :=
        { id := s.favoriteCurrentId
          userId := userId
          listingId := listingId
          createdAt := s.clock }
      .ok (f, { s with favorites := s.favorites ++ [f],
                       favoriteCurrentId := s.favoriteCurrentId + 1,
                       clock := s.clock + 1 })
    else
      .error .foreignKeyViolation

/-- DbStorage.removeFavorite: DELETE of every row with the pair, RETURNING
whether any existed. -/
def removeFavorite (s : Store) (userId listingId : Nat) : Bool × Store :=
  (s.favorites.any (fun f => f.userId == userId && f.listingId == listingId),
   { s with favorites :=
      (s.favorites.filter (fun f => !(f.userId == userId && f.listingId == listingId))) })

/-- DbStorage.getUserFavorites: join of listings with the favorites of the
user, ORDER BY f.created_at DESC — the FAVORITE creation time. -/
def getUserFavorites (s : Store) (userId : Nat) : List Listing :=
  let favs := sortFavoritesByCreatedDesc (s.favorites.filter (fun f => f.userId == userId))
  favs.filterMap (fun f => findListing s f.listingId)

/-- DbStorage.isFavorite. -/
def isFavorite (s : Store) (userId listingId : Nat) : Bool :=
  s.favorites.any (fun f => f.userId == userId && f.listingId == listingId)

end Db

/-!
Concrete sample run, used by the counterexample and witness theorems below.
Every step of the chain succeeds (the theorems that use a step assert the
facts they need about it); the hash function of the run is the identity,
which is a legitimate instance of the abstract hash parameter.
-/

/-- Sample user input. -/
def insUserAB : InsertUser := ⟨"a@b.com", "ab", "pw", none, none⟩

/-- Sample listing input owned by user 1, with a non-null description. -/
def clL1 : CreateListing :=
  ⟨"L1", some "d", [⟨"Dozen eggs", 6⟩], none, "pickup", none, "addr", none, none, some 1⟩

/-- A second sample listing input owned by user 1. -/
def clL2 : CreateListing :=
  ⟨"L2", none, [⟨"Bread", 4⟩], none, "pickup", none, "addr", none, none, some 1⟩

/-- The same listing input with userId supplied as the falsy 0. -/
def clL0 : CreateListing :=
  ⟨"L1", some "d", [⟨"Dozen eggs", 6⟩], none, "pickup", none, "addr", none, none, some 0⟩

/-- State after creating the sample user (id 1). -/
def st1 : Store := (Mem.createUser id Store.empty insUserAB).2

/-- State after creating listing 1. -/
def st2 : Store :=
  match Mem.createListing st1 clL1 with
  | .ok x => x.2
  | .error _ => st1

/-- State after creating listing 2 (created later, so its creation time is
greater than that of listing 1). -/
def st3 : Store :=
  match Mem.createListing st2 clL2 with
  | .ok x => x.2
  | .error _ => st2

/-- State after user 1 favorites listing 2 first. -/
def st4 : Store :=
  match Mem.addFavorite st3 1 2 with
  | .ok x => x.2
  | .error _ => st3

/-- State after user 1 then favorites listing 1 (so the favorite of listing 1
is the more recently created favorite). -/
def st5 : Store :=
  match Mem.addFavorite st4 1 1 with
  | .ok x => x.2
  | .error _ => st4

/-- State after creating the category Eggs (id 1). -/
def st6 : Store := (Mem.createCategory st5 ⟨"Eggs", none⟩).2

/-- State after attaching category 1 to listing 1. -/
def st7 : Store := Mem.addCategoryToListing st6 1 1

/-- State after MemStorage deletes listing 1: the favorite and junction rows
referencing listing 1 survive. -/
def st8 : Store := (Mem.deleteListing st7 1).2

/-- State after creating the category Eggs on an empty store. -/
def ct1 : Store := (Mem.createCategory Store.empty ⟨"Eggs", none⟩).2

/-- State after MemStorage creates a second category also named Eggs. -/
def ct2 : Store := (Mem.createCategory ct1 ⟨"Eggs", none⟩).2

/-- An update object whose only key is an explicit null description. -/
def updNullDesc : ListingUpdate :=
  ⟨none, some none, none, none, none, none, none, none, none, none⟩

/-- C9: createListing treats a supplied userId of 0 exactly like an absent
ownerId: both backends fail with the MissingOwner condition (the thrown
"User ID is required to create a listing"), identically to the call with
userId absent, and no listing is created (the error return carries no
successor state; the caller keeps its state). -/
theorem createListing_zero_userId_missing_owner (s t : Store) (d : CreateListing)
    (h : d.userId = some 0) :
    Mem.createListing s d = .error .missingOwner ∧
    Db.createListing t d = .error .missingOwner ∧
    Mem.createListing s d = Mem.createListing s { d with userId := none } ∧
    Db.createListing t d = Db.createListing t { d with userId := none } := by
  refine ⟨?_, ?_, ?_, ?_⟩ <;> simp [Mem.createListing, Db.createListing, falsyId, h]

/-- Witness for C9 at the concrete zero-owner input. -/
theorem createListing_zero_userId_missing_owner_witness :
    clL0.userId = some 0 ∧ Mem.createListing st1 clL0 = .error .missingOwner :=
  ⟨by decide, (createListing_zero_userId_missing_owner st1 st1 clL0 (by decide)).1⟩

/-- C10: MemStorage.addFavorite validates that the referenced user and
listing exist before it looks for an existing favorite, so in a state that
still holds a (userId, listingId) favorite whose listing is gone, the call
throws the reference-not-found error instead of returning the stored row. -/
theorem mem_addFavorite_checks_references_before_existing (s : Store) (u l : Nat)
    (hfav : (findFavoritePair s u l).isSome = true) (hgone : findListing s l = none) :
    Mem.addFavorite s u l = .error .referenceNotFound := by
  simp [Mem.addFavorite, hgone]

/-- Witness for C10: after the sample run deletes listing 1, its favorite row
is still present and re-adding the favorite fails. -/
theorem mem_addFavorite_checks_references_before_existing_witness :
    (findFavoritePair st8 1 1).isSome = true ∧ findListing st8 1 = none ∧
    Mem.addFavorite st8 1 1 = .error .referenceNotFound :=
  ⟨by decide, by decide,
    mem_addFavorite_checks_references_before_existing st8 1 1 (by decide) (by decide)⟩

/-- C2 (failing run): MemStorage.deleteListing 1 on the sample state returns
true but removes only the listing row: the favorite row (1, 1) and the
junction row (1, 1) survive, and isFavorite 1 1 stays true. Running
DbStorage.deleteListing on the same rows cascades both away, as the claim
demands. -/
theorem mem_deleteListing_leaves_favorites_and_junction_rows :
    (Mem.deleteListing st7 1).1 = true ∧
    Mem.isFavorite (Mem.deleteListing st7 1).2 1 1 = true ∧
    ((Mem.deleteListing st7 1).2.favorites.filter (fun f => f.listingId == 1)).length = 1 ∧
    ((Mem.deleteListing st7 1).2.listingCategories.filter (fun p => p.listingId == 1)).length = 1 ∧
    (Db.deleteListing st7 1).1 = true ∧
    ((Db.deleteListing st7 1).2.favorites.filter (fun f => f.listingId == 1)) = [] ∧
    ((Db.deleteListing st7 1).2.listingCategories.filter (fun p => p.listingId == 1)) = [] ∧
    Db.isFavorite (Db.deleteListing st7 1).2 1 1 = false := by decide

/-- C8 (failing run): in the sample state user 1 favorited listing 2 first
and listing 1 last, so ordering by favorite-creation time descending is
[1, 2] — which is what DbStorage returns — while MemStorage.getUserFavorites
sorts by the LISTING creation time descending and returns [2, 1]. -/
theorem mem_getUserFavorites_sorted_by_listing_time :
    ((st5.favorites.filter (fun f => f.userId == 1)).map (fun f => (f.listingId, f.createdAt)))
      = [(2, 3), (1, 4)] ∧
    (Mem.getUserFavorites st5 1).map (fun l => l.id) = [2, 1] ∧
    (Db.getUserFavorites st5 1).map (fun l => l.id) = [1, 2] := by decide

/-- C1 (counterexample): on identical states the two backends return
different externally observable results. Both produce the same state when
the category Eggs is first created on the empty store; re-creating Eggs then
returns a fresh Category in the Transient Store but fails with a uniqueness
violation in the Relational Store (categories_name_idx). -/
theorem backends_diverge_on_duplicate_category_name :
    Mem.createCategory Store.empty ⟨"Eggs", none⟩ = (⟨1, "Eggs", none, 0⟩, ct1) ∧
    Db.createCategory Store.empty ⟨"Eggs", none⟩ = .ok (⟨1, "Eggs", none, 0⟩, ct1) ∧
    (Mem.createCategory ct1 ⟨"Eggs", none⟩).1.name = "Eggs" ∧
    (Mem.createCategory ct1 ⟨"Eggs", none⟩).2.categories.length = 2 ∧
    Db.createCategory ct1 ⟨"Eggs", none⟩ = .error .uniqueViolation := by decide

/-- Deleting a favorite pair agrees between the backends on any state whose
favorite rows have pairwise distinct ids and at most one row for the pair:
MemStorage deletes the first matching row by its id, DbStorage deletes every
row matching the pair, and under those invariants (which both stores
maintain) the two coincide, including the returned boolean. -/
theorem removeFavorite_agree (s : Store) (u l : Nat)
    (hid : (s.favorites.map (fun f => f.id)).Nodup)
    (hpair : (s.favorites.filter (fun f => f.userId == u && f.listingId == l)).length ≤ 1) :
    Mem.removeFavorite s u l = Db.removeFavorite s u l := by
  unfold Mem.removeFavorite Db.removeFavorite findFavoritePair
  cases hfind : s.favorites.find? (fun f => f.userId == u && f.listingId == l) with
  | none =>
    rw [List.find?_eq_none] at hfind
    have h1 : s.favorites.any (fun f => f.userId == u && f.listingId == l) = false := by
      rw [Bool.eq_false_iff]
      intro h
      rw [List.any_eq_true] at h
      obtain ⟨x, hx, hpx⟩ := h
      exact hfind x hx hpx
    have h2 : s.favorites.filter (fun f => !(f.userId == u && f.listingId == l)) = s.favorites := by
      rw [List.filter_eq_self]
      intro a ha
      simp [hfind a ha]
    rw [h1, h2]
  | some f =>
    have hfp0 := List.find?_some hfind
    have hfm0 := List.mem_of_find?_eq_some hfind
    have hfp : (f.userId == u && f.listingId == l) = true := hfp0
    have hfm : f ∈ s.favorites := hfm0
    have hinj : ∀ x ∈ s.favorites, ∀ y ∈ s.favorites, x.id = y.id → x = y :=
      List.inj_on_of_nodup_map hid
    have huniq : ∀ x ∈ s.favorites, (x.userId == u && x.listingId == l) = true → x = f := by
      intro x hx hpx
      have hxf : x ∈ s.favorites.filter (fun f => f.userId == u && f.listingId == l) :=
        List.mem_filter.mpr ⟨hx, hpx⟩
      have hff : f ∈ s.favorites.filter (fun f => f.userId == u && f.listingId == l) :=
        List.mem_filter.mpr ⟨hfm, hfp⟩
      have hlen1 : (s.favorites.filter (fun f => f.userId == u && f.listingId == l)).length = 1 := by
        refine Nat.le_antisymm hpair ?_
        have hpos : 0 < (s.favorites.filter (fun f => f.userId == u && f.listingId == l)).length :=
          List.length_pos.mpr (List.ne_nil_of_mem hff)
        omega
      obtain ⟨a, ha⟩ := List.length_eq_one.mp hlen1
      rw [ha] at hxf hff
      simp only [List.mem_singleton] at hxf hff
      rw [hxf, hff]
    have h1 : s.favorites.any (fun f => f.userId == u && f.listingId == l) = true := by
      rw [List.any_eq_true]
      exact ⟨f, hfm, hfp⟩
    have h2 : s.favorites.filter (fun x => x.id != f.id)
        = s.favorites.filter (fun x => !(x.userId == u && x.listingId == l)) := by
      apply List.filter_congr
      intro x hx
      by_cases hpx : (x.userId == u && x.listingId == l) = true
      · obtain rfl := huniq x hx hpx
        simp [hpx]
      · have hne : x.id ≠ f.id := by
          intro hxe
          exact hpx (by rw [hinj x hx f hfm hxe]; exact hfp)
        simp [hne, hpx]
    dsimp only
    rw [h1, h2]

/-- C1 (amended): the two backends are not behaviorally equivalent for every
operation (see the duplicate-category-name counterexample; deleteListing
cascades, explicit-null updates, addCategoryToListing with absent
references, the order of the addFavorite checks, and the getUserFavorites
ordering also diverge). They do agree, on every state satisfying the
favorite-id and pair-uniqueness invariants, on removeFavorite and on all the
covered read operations: listing/category/user lookups and enumerations, the
junction queries, validatePassword and isFavorite. -/
theorem backends_agree_on_reads_and_removeFavorite (hashFn : String → String) (s : Store)
    (e p nm un : String) (uid lid cid oid : Nat)
    (hid : (s.favorites.map (fun f => f.id)).Nodup)
    (hpair : (s.favorites.filter (fun f => f.userId == uid && f.listingId == lid)).length ≤ 1) :
    Mem.removeFavorite s uid lid = Db.removeFavorite s uid lid ∧
    Mem.getListing s oid = Db.getListing s oid ∧
    Mem.getAllListings s = Db.getAllListings s ∧
    Mem.getUserListings s uid = Db.getUserListings s uid ∧
    Mem.getCategory s cid = Db.getCategory s cid ∧
    Mem.getCategoryByName s nm = Db.getCategoryByName s nm ∧
    Mem.getAllCategories s = Db.getAllCategories s ∧
    Mem.getListingCategories s lid = Db.getListingCategories s lid ∧
    Mem.getCategoryListings s cid = Db.getCategoryListings s cid ∧
    Mem.getUserById s uid = Db.getUserById s uid ∧
    Mem.getUserByEmail s e = Db.getUserByEmail s e ∧
    Mem.getUserByUsername s un = Db.getUserByUsername s un ∧
    Mem.validatePassword hashFn s e p = Db.validatePassword hashFn s e p ∧
    Mem.isFavorite s uid lid = Db.isFavorite s uid lid :=
  ⟨removeFavorite_agree s uid lid hid hpair,
   rfl, rfl, rfl, rfl, rfl, rfl, rfl, rfl, rfl, rfl, rfl, rfl, rfl⟩

/-- Witness for the amended C1 on the sample state. -/
theorem backends_agree_witness :
    (st5.favorites.map (fun f => f.id)).Nodup ∧
    (st5.favorites.filter (fun f => f.userId == 1 && f.listingId == 1)).length ≤ 1 ∧
    Mem.removeFavorite st5 1 1 = Db.removeFavorite st5 1 1 :=
  ⟨by decide, by decide,
    (backends_agree_on_reads_and_removeFavorite id st5 "a@b.com" "pw" "Eggs" "ab" 1 1 1 1
      (by decide) (by decide)).1⟩

/-- C6 (counterexample): MemStorage.createCategory performs no name check of
any kind, so a sequence of two createCategory calls at the storage boundary
leaves two distinct Categories both named Eggs. -/
theorem mem_createCategory_allows_duplicate_name :
    (ct2.categories.filter (fun c => c.name == "Eggs")).length = 2 ∧
    (Mem.createCategory ct1 ⟨"Eggs", none⟩).1.id = 2 ∧
    (Mem.createCategory ct1 ⟨"Eggs", none⟩).1.name = "Eggs" := by decide

/-- C6 (amended): only the Relational Store enforces name uniqueness at the
storage boundary — its unique index rejects a colliding createCategory, and
createCategory preserves distinctness of names. (The Transient Store leaves
the check to the route layer, per the counterexample.) -/
theorem db_createCategory_enforces_unique_names (s : Store) (d : CreateCategory)
    (h : (s.categories.map (fun c => c.name)).Nodup) :
    ((s.categories.any (fun c => c.name == d.name)) = true →
        Db.createCategory s d = .error .uniqueViolation) ∧
    (∀ c t, Db.createCategory s d = .ok (c, t) →
        (t.categories.map (fun c => c.name)).Nodup) := by
  constructor
  · intro ha
    simp [Db.createCategory, ha]
  · intro c t hok
    unfold Db.createCategory at hok
    by_cases ha : (s.categories.any (fun c => c.name == d.name)) = true
    · simp [ha] at hok
    · simp [ha] at hok
      obtain ⟨-, ht⟩ := hok
      subst ht
      simp only [List.map_append, List.map_cons, List.map_nil]
      rw [List.nodup_append]
      refine ⟨h, List.nodup_singleton _, ?_⟩
      intro a ha2 hb
      simp only [List.mem_singleton] at hb
      subst hb
      apply ha
      rw [List.any_eq_true]
      obtain ⟨c2, hc2, hc2n⟩ := List.mem_map.mp ha2
      exact ⟨c2, hc2, by simp [hc2n]⟩

/-- Witness for the amended C6 on a store holding Eggs with distinct names. -/
theorem db_createCategory_enforces_unique_names_witness :
    (ct1.categories.map (fun c => c.name)).Nodup ∧
    (ct1.categories.any (fun c => c.name == "Eggs")) = true ∧
    Db.createCategory ct1 ⟨"Eggs", none⟩ = .error .uniqueViolation :=
  ⟨by decide, by decide,
    (db_createCategory_enforces_unique_names ct1 ⟨"Eggs", none⟩ (by decide)).1 (by decide)⟩

/-- C5 (counterexample): with both referenced entities absent (the empty
store) and no existing pair, DbStorage.addCategoryToListing is not a silent
no-op: the INSERT violates the listing_categories foreign keys and the
operation fails. -/
theorem db_addCategoryToListing_raises_on_absent_refs :
    Db.addCategoryToListing Store.empty 1 1 = .error .foreignKeyViolation ∧
    Mem.addCategoryToListing Store.empty 1 1 = Store.empty := by decide

/-- C5 (amended): addCategoryToListing is idempotent in both backends — an
existing pair creates no new row and raises no error — and when both
entities exist and the pair is absent exactly one junction row is appended;
but an absent referenced entity is a silent no-op only in the Transient
Store, while the Relational Store fails with a foreign-key violation. -/
theorem addCategoryToListing_semantics (s : Store) (lid cid : Nat) :
    (hasPair s lid cid = true →
        Mem.addCategoryToListing s lid cid = s ∧ Db.addCategoryToListing s lid cid = .ok s) ∧
    ((findListing s lid).isSome = true → (findCategory s cid).isSome = true →
      hasPair s lid cid = false →
        Mem.addCategoryToListing s lid cid
          = { s with listingCategories := s.listingCategories ++ [⟨lid, cid⟩] } ∧
        Db.addCategoryToListing s lid cid
          = .ok { s with listingCategories := s.listingCategories ++ [⟨lid, cid⟩] }) ∧
    (((findListing s lid).isSome && (findCategory s cid).isSome) = false →
        Mem.addCategoryToListing s lid cid = s) ∧
    (((findListing s lid).isSome && (findCategory s cid).isSome) = false →
      hasPair s lid cid = false →
        Db.addCategoryToListing s lid cid = .error .foreignKeyViolation) := by
  refine ⟨?_, ?_, ?_, ?_⟩
  · intro hp
    constructor
    · simp [Mem.addCategoryToListing, hp]
    · simp [Db.addCategoryToListing, hp]
  · intro h1 h2 hp
    constructor
    · simp [Mem.addCategoryToListing, h1, h2, hp]
    · simp [Db.addCategoryToListing, h1, h2, hp]
  · intro hx
    rw [Bool.and_eq_false_iff] at hx
    cases hx with
    | inl h => simp [Mem.addCategoryToListing, h]
    | inr h => simp [Mem.addCategoryToListing, h]
  · intro hx hp
    rw [Bool.and_eq_false_iff] at hx
    cases hx with
    | inl h => simp [Db.addCategoryToListing, hp, h]
    | inr h => simp [Db.addCategoryToListing, hp, h]

/-- C4 (counterexample): idempotent return of an existing Favorite does not
hold in every state. In the sample state whose listing 1 was deleted while
its favorite row (1, 1) survived, MemStorage.addFavorite 1 1 fails with the
reference error instead of returning the stored Favorite. -/
theorem mem_addFavorite_not_idempotent_after_listing_delete :
    (findFavoritePair st8 1 1).isSome = true ∧
    Mem.addFavorite st8 1 1 = .error .referenceNotFound := by decide

/-- C4 (amended): when both references resolve, addFavorite is idempotent in
both backends — an existing (userId, listingId) row is returned unchanged
with the state untouched, and otherwise exactly one new Favorite is created;
when either reference does not resolve, the Transient Store fails with the
reference-not-found error even if a matching row exists, while the
Relational Store returns an existing row first and only fails (with a
foreign-key violation) when it must insert. -/
theorem addFavorite_reference_checks (s : Store) (u l : Nat) :
    (((findUser s u).isSome && (findListing s l).isSome) = false →
        Mem.addFavorite s u l = .error .referenceNotFound) ∧
    (∀ f, ((findUser s u).isSome && (findListing s l).isSome) = true →
        findFavoritePair s u l = some f → Mem.addFavorite s u l = .ok (f, s)) ∧
    (((findUser s u).isSome && (findListing s l).isSome) = true →
        findFavoritePair s u l = none →
        Mem.addFavorite s u l = .ok
          (⟨s.favoriteCurrentId, u, l, s.clock⟩,
           { s with favorites := s.favorites ++ [⟨s.favoriteCurrentId, u, l, s.clock⟩],
                    favoriteCurrentId := s.favoriteCurrentId + 1,
                    clock := s.clock + 1 })) ∧
    (∀ f, findFavoritePair s u l = some f → Db.addFavorite s u l = .ok (f, s)) ∧
    (findFavoritePair s u l = none →
        ((findUser s u).isSome && (findListing s l).isSome) = false →
        Db.addFavorite s u l = .error .foreignKeyViolation) ∧
    (findFavoritePair s u l = none →
        ((findUser s u).isSome && (findListing s l).isSome) = true →
        Db.addFavorite s u l = .ok
          (⟨s.favoriteCurrentId, u, l, s.clock⟩,
           { s with favorites := s.favorites ++ [⟨s.favoriteCurrentId, u, l, s.clock⟩],
                    favoriteCurrentId := s.favoriteCurrentId + 1,
                    clock := s.clock + 1 })) := by
  refine ⟨?_, ?_, ?_, ?_, ?_, ?_⟩
  · intro hx
    simp [Mem.addFavorite, hx]
  · intro f hx hf
    simp [Mem.addFavorite, hx, hf]
  · intro hx hf
    simp [Mem.addFavorite, hx, hf]
  · intro f hf
    simp [Db.addFavorite, hf]
  · intro hf hx
    simp [Db.addFavorite, hf, hx]
  · intro hf hx
    simp [Db.addFavorite, hf, hx]

/-- Witness for the amended C4: in the sample state both references of the
pair (1, 2) resolve and the pair exists, so re-adding returns the stored
row and leaves the state unchanged. -/
theorem addFavorite_reference_checks_witness :
    ((findUser st5 1).isSome && (findListing st5 2).isSome) = true ∧
    findFavoritePair st5 1 2 = some ⟨1, 1, 2, 3⟩ ∧
    Mem.addFavorite st5 1 2 = .ok (⟨1, 1, 2, 3⟩, st5) :=
  ⟨by decide, by decide,
    (addFavorite_reference_checks st5 1 2).2.1 ⟨1, 1, 2, 3⟩ (by decide) (by decide)⟩

/-- C7: validatePassword collapses both failure causes to null and never
raises: an unknown email returns null, a known email with a non-matching
password hash returns null, and it returns exactly the stored user when the
email resolves and the hash comparison succeeds; both backends compute the
same function of the user table. (The operations are total functions into
Option in this model; the source has no throw on either failure path.) -/
theorem validatePassword_null_indistinguishable (hashFn : String → String) (s : Store)
    (e p : String) :
    (Mem.getUserByEmail s e = none → Mem.validatePassword hashFn s e p = none) ∧
    (∀ u, Mem.getUserByEmail s e = some u → hashFn p ≠ u.passwordHash →
        Mem.validatePassword hashFn s e p = none) ∧
    (∀ u, Mem.validatePassword hashFn s e p = some u ↔
        (Mem.getUserByEmail s e = some u ∧ hashFn p = u.passwordHash)) ∧
    Mem.validatePassword hashFn s e p = Db.validatePassword hashFn s e p := by
  refine ⟨?_, ?_, ?_, rfl⟩
  · intro h
    simp [Mem.validatePassword, h]
  · intro u hu hne
    simp [Mem.validatePassword, hu, hne]
  · intro u
    unfold Mem.validatePassword
    cases h : Mem.getUserByEmail s e with
    | none => simp
    | some v =>
      by_cases hh : hashFn p = v.passwordHash
      · simp only [hh, beq_self_eq_true, if_true]
        constructor
        · intro he
          obtain rfl := Option.some.inj he
          exact ⟨rfl, rfl⟩
        · intro ⟨he, _⟩
          exact he
      · simp only [beq_iff_eq, hh, if_false]
        constructor
        · intro hf
          exact absurd hf (by simp)
        · intro ⟨he, hp2⟩
          obtain rfl := Option.some.inj he
          exact absurd hp2 hh

/-- Witness for C7 on the sample user table: unknown email null, wrong
password null, correct password returns the stored user. -/
theorem validatePassword_null_indistinguishable_witness :
    Mem.validatePassword id st1 "z@z.com" "pw" = none ∧
    Mem.validatePassword id st1 "a@b.com" "bad" = none ∧
    Mem.validatePassword id st1 "a@b.com" "pw" = some ⟨1, "a@b.com", "ab", "pw", none, none, false, 0⟩ :=
  ⟨(validatePassword_null_indistinguishable id st1 "z@z.com" "pw").1 (by decide),
   (validatePassword_null_indistinguishable id st1 "a@b.com" "bad").2.1
     ⟨1, "a@b.com", "ab", "pw", none, none, false, 0⟩ (by decide) (by decide),
   ((validatePassword_null_indistinguishable id st1 "a@b.com" "pw").2.2.1
     ⟨1, "a@b.com", "ab", "pw", none, none, false, 0⟩).mpr ⟨by decide, by decide⟩⟩

/-- The partial-update semantics in the words of the spec (amended for the
Relational Store): each field present in the input, and only those fields, is
applied — a present explicit null is applied to its nullable column — every
absent field retains its prior value, and id and createdAt are immutable. -/
def mergeListingSpec (l : Listing) (u : ListingUpdate) : Listing :=
  { id := l.id
    title := match u.title with | some v => v | none => l.title
    description := match u.description with | some v => v | none => l.description
    items := match u.items with | some v => v | none => l.items
    categories := match u.categories with | some v => v | none => l.categories
    pickupInstructions := match u.pickupInstructions with | some v => v | none => l.pickupInstructions
    paymentInfo := match u.paymentInfo with | some v => v | none => l.paymentInfo
    address := match u.address with | some v => v | none => l.address
    coordinates := match u.coordinates with | some v => v | none => l.coordinates
    imageUrl := match u.imageUrl with | some v => v | none => l.imageUrl
    createdAt := l.createdAt
    userId := match u.userId with | some v => v | none => l.userId }

/-- Mapping an id-preserving rewrite over the table commutes with looking the
row up by that id. -/
theorem find?_listing_map_set (xs : List Listing) (id : Nat) (f : Listing → Listing)
    (hf : ∀ x, (f x).id = x.id) :
    (xs.map (fun x => if x.id == id then f x else x)).find? (fun x => x.id == id)
      = (xs.find? (fun x => x.id == id)).map f := by
  induction xs with
  | nil => rfl
  | cons x xs ih =>
    rw [List.map_cons, List.find?_cons, List.find?_cons]
    by_cases hx : x.id = id
    · have hb : (x.id == id) = true := by simp [hx]
      have h1 : ((if x.id == id then f x else x).id == id) = true := by simp [hx, hf]
      rw [h1, hb]
      simp [hb]
    · have hb : (x.id == id) = false := by simp [hx]
      have h1 : ((if x.id == id then f x else x).id == id) = false := by simp [hx]
      rw [h1, hb]
      exact ih

/-- After one conditional per-field statement, looking the row up yields the
prior row with that statement applied, provided the statement does not touch
the id column. -/
theorem findListing_updateField {β : Type} (s : Store) (id : Nat) (upd : Option β)
    (set : β → Listing → Listing) (hset : ∀ v x, (set v x).id = x.id) :
    findListing (Db.updateField s id upd set) id
      = (findListing s id).map (Db.applyUpd upd set) := by
  cases upd with
  | none =>
    cases h : findListing s id <;> simp [Db.updateField, Db.applyUpd, h]
  | some v =>
    unfold Db.updateField Db.applyUpd findListing Db.setListingField
    exact find?_listing_map_set s.listings id (set v) (hset v)

/-- The title statement writes exactly the title field. -/
theorem applyUpd_title (upd : Option String) (y : Listing) :
    Db.applyUpd upd (fun v x => { x with title := v }) y
      = { y with title := match upd with | some v => v | none => y.title } := by
  cases upd <;> rfl

/-- The description statement writes exactly the description field. -/
theorem applyUpd_description (upd : Option (Option String)) (y : Listing) :
    Db.applyUpd upd (fun v x => { x with description := v }) y
      = { y with description := match upd with | some v => v | none => y.description } := by
  cases upd <;> rfl

/-- The items statement writes exactly the items field. -/
theorem applyUpd_items (upd : Option (List Item)) (y : Listing) :
    Db.applyUpd upd (fun v x => { x with items := v }) y
      = { y with items := match upd with | some v => v | none => y.items } := by
  cases upd <;> rfl

/-- The categories statement writes exactly the categories field. -/
theorem applyUpd_categories (upd : Option (List String)) (y : Listing) :
    Db.applyUpd upd (fun v x => { x with categories := v }) y
      = { y with categories := match upd with | some v => v | none => y.categories } := by
  cases upd <;> rfl

/-- The pickup_instructions statement writes exactly that field. -/
theorem applyUpd_pickupInstructions (upd : Option String) (y : Listing) :
    Db.applyUpd upd (fun v x => { x with pickupInstructions := v }) y
      = { y with pickupInstructions := match upd with | some v => v | none => y.pickupInstructions } := by
  cases upd <;> rfl

/-- The payment_info statement writes exactly that field. -/
theorem applyUpd_paymentInfo (upd : Option (Option String)) (y : Listing) :
    Db.applyUpd upd (fun v x => { x with paymentInfo := v }) y
      = { y with paymentInfo := match upd with | some v => v | none => y.paymentInfo } := by
  cases upd <;> rfl

/-- The address statement writes exactly that field. -/
theorem applyUpd_address (upd : Option String) (y : Listing) :
    Db.applyUpd upd (fun v x => { x with address := v }) y
      = { y with address := match upd with | some v => v | none => y.address } := by
  cases upd <;> rfl

/-- The coordinates statement writes exactly that field. -/
theorem applyUpd_coordinates (upd : Option (Option Coordinates)) (y : Listing) :
    Db.applyUpd upd (fun v x => { x with coordinates := v }) y
      = { y with coordinates := match upd with | some v => v | none => y.coordinates } := by
  cases upd <;> rfl

/-- The image_url statement writes exactly that field. -/
theorem applyUpd_imageUrl (upd : Option (Option String)) (y : Listing) :
    Db.applyUpd upd (fun v x => { x with imageUrl := v }) y
      = { y with imageUrl := match upd with | some v => v | none => y.imageUrl } := by
  cases upd <;> rfl

/-- The user_id statement writes exactly that field. -/
theorem applyUpd_userId (upd : Option Nat) (y : Listing) :
    Db.applyUpd upd (fun v x => { x with userId := v }) y
      = { y with userId := match upd with | some v => v | none => y.userId } := by
  cases upd <;> rfl

/-- A user lookup is unaffected by a per-field listing UPDATE statement. -/
theorem findUser_updateField {β : Type} (s : Store) (id : Nat) (upd : Option β)
    (set : β → Listing → Listing) (uid : Nat) :
    findUser (Db.updateField s id upd set) uid = findUser s uid := by
  cases upd <;> rfl

/-- After one unconditional UPDATE statement, looking the row up yields the
prior row with the statement applied, for statements not touching the id. -/
theorem findListing_setListingField (s : Store) (id : Nat) (f : Listing → Listing)
    (hf : ∀ x, (f x).id = x.id) :
    findListing (Db.setListingField s id f) id = (findListing s id).map f := by
  unfold findListing Db.setListingField
  exact find?_listing_map_set s.listings id f hf

/-- With no userId in the update object, the nine per-field UPDATE statements
of DbStorage.updateListing compose, on the targeted row, to exactly the
fieldwise merge of the spec. -/
theorem db_updateListing_no_userId (s : Store) (id : Nat) (u : ListingUpdate) (l : Listing)
    (hl : findListing s id = some l) (hne : u.isEmpty = false) (hu : u.userId = none) :
    Db.updatedRow (Db.updateListing s id u) = some (mergeListingSpec l u) := by
  unfold Db.updateListing
  rw [hl, hne]
  simp only [Bool.false_eq_true, if_false]
  rw [hu]
  dsimp only
  rw [findListing_updateField, findListing_updateField, findListing_updateField,
      findListing_updateField, findListing_updateField, findListing_updateField,
      findListing_updateField, findListing_updateField, findListing_updateField, hl]
  simp only [Option.map_some']
  rw [applyUpd_title, applyUpd_description, applyUpd_items, applyUpd_categories,
      applyUpd_pickupInstructions, applyUpd_paymentInfo, applyUpd_address,
      applyUpd_coordinates, applyUpd_imageUrl]
  simp [Db.updatedRow, mergeListingSpec, hu]
  all_goals intros
  all_goals rfl

/-- With a userId that resolves to an existing user, the ten statements of
DbStorage.updateListing compose, on the targeted row, to exactly the
fieldwise merge of the spec. -/
theorem db_updateListing_userId_ok (s : Store) (id : Nat) (u : ListingUpdate) (l : Listing)
    (v : Nat) (hl : findListing s id = some l) (hne : u.isEmpty = false)
    (hu : u.userId = some v) (hv : (findUser s v).isSome = true) :
    Db.updatedRow (Db.updateListing s id u) = some (mergeListingSpec l u) := by
  unfold Db.updateListing
  rw [hl, hne]
  simp only [Bool.false_eq_true, if_false]
  rw [hu]
  dsimp only
  simp only [findUser_updateField]
  rw [hv, if_pos (Eq.refl true)]
  rw [findListing_setListingField]
  rotate_left
  · intro x; rfl
  rw [findListing_updateField, findListing_updateField, findListing_updateField,
      findListing_updateField, findListing_updateField, findListing_updateField,
      findListing_updateField, findListing_updateField, findListing_updateField, hl]
  simp only [Option.map_some']
  rw [applyUpd_title, applyUpd_description, applyUpd_items, applyUpd_categories,
      applyUpd_pickupInstructions, applyUpd_paymentInfo, applyUpd_address,
      applyUpd_coordinates, applyUpd_imageUrl]
  simp [Db.updatedRow, mergeListingSpec, hu]
  all_goals intros
  all_goals rfl

/-- With a userId that does not resolve, DbStorage.updateListing throws the
foreign-key violation of listings.user_id after the other nine statements
have already been issued: the error state still holds the row with every
other present field applied (the documented non-atomicity hazard) and the
userId unchanged. -/
theorem db_updateListing_userId_fk (s : Store) (id : Nat) (u : ListingUpdate) (l : Listing)
    (v : Nat) (hl : findListing s id = some l) (hne : u.isEmpty = false)
    (hu : u.userId = some v) (hv : (findUser s v).isSome = false) :
    Db.updateError (Db.updateListing s id u) = some .foreignKeyViolation ∧
    Option.bind (Db.updateErrorState (Db.updateListing s id u)) (fun t => findListing t id)
      = some (mergeListingSpec l { u with userId := none }) := by
  unfold Db.updateListing
  rw [hl, hne]
  simp only [Bool.false_eq_true, if_false]
  rw [hu]
  dsimp only
  simp only [findUser_updateField]
  rw [hv, if_neg Bool.false_ne_true]
  constructor
  · rfl
  · dsimp only [Db.updateErrorState, Option.bind]
    rw [findListing_updateField, findListing_updateField, findListing_updateField,
        findListing_updateField, findListing_updateField, findListing_updateField,
        findListing_updateField, findListing_updateField, findListing_updateField, hl]
    simp only [Option.map_some']
    rw [applyUpd_title, applyUpd_description, applyUpd_items, applyUpd_categories,
        applyUpd_pickupInstructions, applyUpd_paymentInfo, applyUpd_address,
        applyUpd_coordinates, applyUpd_imageUrl]
    simp [mergeListingSpec]
    all_goals intros
    all_goals rfl

/-- An update object whose only key sets userId to the (nonexistent) user
99. -/
def updUser99 : ListingUpdate :=
  ⟨none, none, none, none, none, none, none, none, none, some 99⟩

/-- C3 (counterexample): an explicitly null field is NOT applied by
MemStorage.updateListing. Updating the sample listing (stored description
"d") with the single-key object whose description is null returns the
record with description still "d" in the Transient Store, while the
Relational Store writes the null as the claim describes. -/
theorem mem_updateListing_drops_explicit_null :
    updNullDesc.description = some none ∧
    (Mem.updateListing st2 1 updNullDesc).map (fun x => x.1.description) = some (some "d") ∧
    (Db.updatedRow (Db.updateListing st2 1 updNullDesc)).map (fun l => l.description)
      = some none := by decide

/-- C3 (amended): updateListing is field-granular in both backends — a
non-existent id yields undefined, an empty update returns the existing
record with the state unchanged, each present field and only those fields
are applied, absent fields retain prior values — with two qualifications.
An explicitly null field is applied only by the Relational Store; the
Transient Store treats a null exactly like an absent field and keeps the
prior value. And in the Relational Store the per-field user_id statement is
subject to the listings.user_id foreign key: a userId update naming a
nonexistent user raises a foreign-key violation instead of returning the
refreshed record, after the other present fields have already been written
and with the userId left unchanged. -/
theorem updateListing_field_granular (s : Store) (id : Nat) (u : ListingUpdate) :
    (findListing s id = none →
        Mem.updateListing s id u = none ∧ Db.updateListing s id u = .ok none) ∧
    (∀ l, findListing s id = some l →
        (Mem.updateListing s id u).map Prod.fst = some (Mem.mergeListingNullish l u) ∧
        (u.isEmpty = false → u.userId = none →
            Db.updatedRow (Db.updateListing s id u) = some (mergeListingSpec l u)) ∧
        (∀ v, u.isEmpty = false → u.userId = some v → (findUser s v).isSome = true →
            Db.updatedRow (Db.updateListing s id u) = some (mergeListingSpec l u)) ∧
        (∀ v, u.isEmpty = false → u.userId = some v → (findUser s v).isSome = false →
            Db.updateError (Db.updateListing s id u) = some .foreignKeyViolation ∧
            Option.bind (Db.updateErrorState (Db.updateListing s id u)) (fun t => findListing t id)
              = some (mergeListingSpec l { u with userId := none })) ∧
        Db.updateListing s id ListingUpdate.empty = .ok (some (l, s))) ∧
    (∀ l, Mem.mergeListingNullish l ListingUpdate.empty = l ∧
        mergeListingSpec l ListingUpdate.empty = l) ∧
    (∀ l, u.description = some none →
        (Mem.mergeListingNullish l u).description = l.description ∧
        (mergeListingSpec l u).description = none) := by
  refine ⟨?_, ?_, ?_, ?_⟩
  · intro h
    constructor
    · unfold Mem.updateListing
      rw [h]
    · unfold Db.updateListing
      rw [h]
  · intro l hl
    refine ⟨?_, ?_, ?_, ?_, ?_⟩
    · unfold Mem.updateListing
      rw [hl]
      rfl
    · intro hne hu
      exact db_updateListing_no_userId s id u l hl hne hu
    · intro v hne hu hv
      exact db_updateListing_userId_ok s id u l v hl hne hu hv
    · intro v hne hu hv
      exact db_updateListing_userId_fk s id u l v hl hne hu hv
    · unfold Db.updateListing
      rw [hl]
      rfl
  · intro l
    exact ⟨rfl, rfl⟩
  · intro l hd
    constructor
    · simp [Mem.mergeListingNullish, applyNullish, hd]
    · simp [mergeListingSpec, hd]

/-- Witness for the amended C3 at the sample listing: the null-description
update (no userId) returns the fieldwise merge, and the update naming the
nonexistent user 99 throws the foreign-key violation. -/
theorem updateListing_field_granular_witness :
    findListing st2 1 = some ⟨1, "L1", some "d", [⟨"Dozen eggs", 6⟩], [], "pickup",
      none, "addr", none, none, 1, 1⟩ ∧
    updNullDesc.isEmpty = false ∧ updNullDesc.userId = none ∧
    Db.updatedRow (Db.updateListing st2 1 updNullDesc)
      = some (mergeListingSpec ⟨1, "L1", some "d", [⟨"Dozen eggs", 6⟩], [], "pickup",
          none, "addr", none, none, 1, 1⟩ updNullDesc) ∧
    updUser99.userId = some 99 ∧ (findUser st2 99).isSome = false ∧
    Db.updateError (Db.updateListing st2 1 updUser99) = some .foreignKeyViolation :=
  ⟨by decide, by decide, by decide,
    (((updateListing_field_granular st2 1 updNullDesc).2.1
        ⟨1, "L1", some "d", [⟨"Dozen eggs", 6⟩], [], "pickup", none, "addr", none, none, 1, 1⟩
        (by decide)).2.1 (by decide) (by decide)),
   by decide, by decide,
    ((((updateListing_field_granular st2 1 updUser99).2.1
        ⟨1, "L1", some "d", [⟨"Dozen eggs", 6⟩], [], "pickup", none, "addr", none, none, 1, 1⟩
        (by decide)).2.2.2.1 99 (by decide) (by decide) (by decide)).1)⟩

/-- Witness for the amended C5: idempotence of the existing pair in the
sample state, and the silent no-op of the Transient Store after deletion. -/
theorem addCategoryToListing_semantics_witness :
    hasPair st7 1 1 = true ∧ Mem.addCategoryToListing st7 1 1 = st7 ∧
    ((findListing st8 1).isSome && (findCategory st8 1).isSome) = false ∧
    Mem.addCategoryToListing st8 1 1 = st8 :=
  ⟨by decide, ((addCategoryToListing_semantics st7 1 1).1 (by decide)).1,
   by decide, (addCategoryToListing_semantics st8 1 1).2.2.1 (by decide)⟩

end LFL
